import Mathlib

/-!
Verification of the Robust-Data-Processor pipeline: an ingestion gateway
(`src/api/main.py`) that validates log entries and publishes them to a queue,
and a processing worker (`src/worker/worker.py`) that redacts and persists
them.  Python strings are modelled as `List Char`; the decoded JSON values the
handlers read are modelled as optional strings (the claims only concern string
or absent values); rational numbers stand for Python's float arithmetic on the
literal `0.05`; the Firestore document store is an association list keyed by
`(tenant_id, log_id)`.
-/

abbrev PyStr := List Char

/-- Characters treated as whitespace by Python's `str.strip()` (ASCII range). -/
def pyIsSpace (c : Char) : Bool :=
  c = ' ' || c = '\t' || c = '\n' || c = '\r' || c = '\x0b' || c = '\x0c'

/-- Python `s.strip()`: remove leading and trailing whitespace. -/
def pyStrip (s : PyStr) : PyStr :=
  ((s.dropWhile pyIsSpace).reverse.dropWhile pyIsSpace).reverse

/-- Python truthiness of an optional string: `None` and `""` are falsy. -/
def pyTruthy : Option PyStr → Bool
  | none => false
  | some s => !s.isEmpty

/-- Python's `in` operator on strings: substring containment. -/
def pyContains (needle hay : PyStr) : Bool := decide (needle <:+: hay)

/-- Python `text.replace(old, new)` for a non-empty `old`: replace each
non-overlapping occurrence, scanning left to right. -/
def pyReplace (old new : PyStr) : PyStr → PyStr
  | [] => []
  | c :: rest =>
    if old.isPrefixOf (c :: rest) && !old.isEmpty then
      new ++ pyReplace old new (rest.drop (old.length - 1))
    else
      c :: pyReplace old new rest
termination_by s => s.length
decreasing_by
  · simp only [List.length_drop, List.length_cons]
    omega
  · simp only [List.length_cons]
    omega

/-- JSON values, used for observable HTTP response bodies.  FastAPI encodes a
Python tuple returned from a handler as a JSON array. -/
inductive Json where
  | null : Json
  | str (s : PyStr) : Json
  | num (n : ℚ) : Json
  | arr (xs : List Json) : Json
  | obj (fields : List (PyStr × Json)) : Json

def Json.ofOptStr : Option PyStr → Json
  | none => Json.null
  | some s => Json.str s

/-- An HTTP response as seen by the client: status code and JSON body. -/
structure HttpResponse where
  status : Nat
  body : Json

/-- FastAPI encodes a raised `HTTPException(status, detail)` as a response
with that status and body `\x7b"detail": detail\x7d`. -/
def httpExceptionResponse (status : Nat) (detail : PyStr) : HttpResponse :=
  ⟨status, Json.obj [("detail".data, Json.str detail)]⟩

namespace Api

/-- The ingestion `source` tag, set by the Gateway. -/
inductive Source where
  | json
  | text_upload
deriving DecidableEq

def Source.str : Source → PyStr
  | Source.json => "json".data
  | Source.text_upload => "text_upload".data

/-- The decoded JSON body of an `/ingest` request, restricted to the three
keys the handler reads via `data.get(...)`; each may be absent (`None`). -/
structure JsonBody where
  tenant_id : Option PyStr
  log_id : Option PyStr
  text : Option PyStr
deriving DecidableEq

/-- An `/ingest` HTTP request.  `jsonBody = none` models a body that fails
JSON parsing (`json.JSONDecodeError`); `rawBody` is the body decoded as UTF-8
for the plain-text branch; `xTenantId` is the `X-Tenant-ID` header. -/
structure IngestRequest where
  contentType : PyStr
  jsonBody : Option JsonBody
  rawBody : PyStr
  xTenantId : Option PyStr
deriving DecidableEq

/-- The canonical message dict built by `ingest` and published to the queue.
Field values are the Python objects placed in the dict, so `tenant_id`,
`log_id` and `text` may in principle be `None`. -/
structure QueueMessage where
  tenant_id : Option PyStr
  log_id : Option PyStr
  text : Option PyStr
  source : Source
deriving DecidableEq

/-- Gateway process configuration: whether a queue publisher was initialised
(`ENVIRONMENT == "production"`). -/
structure GatewayConfig where
  publisherConfigured : Bool
deriving DecidableEq

/-- Outcome of the `ingest` handler body: either a raised `HTTPException`
or the Python return value `(\x7b"status": "accepted", "log_id": log_id\x7d, 202)`. -/
inductive IngestOutcome where
  | httpError (status : Nat) (detail : PyStr)
  | ret (log_id : Option PyStr)
deriving DecidableEq

/-- Content-type dispatch of `ingest`: the branch taken and the local
variables `tenant_id`, `log_id`, `text`, `source` it assigns.  `fresh` is the
`uuid.uuid4()` value generated for the plain-text branch. -/
inductive Dispatched where
  | fields (tenant_id : Option PyStr) (log_id : Option PyStr)
      (text : Option PyStr) (source : Source)
  | invalidJson
  | unsupported
deriving DecidableEq

def dispatch (fresh : PyStr) (req : IngestRequest) : Dispatched :=
  if pyContains "application/json".data req.contentType then
    match req.jsonBody with
    | none => Dispatched.invalidJson
    | some data =>
        Dispatched.fields data.tenant_id data.log_id data.text Source.json
  else if pyContains "text/plain".data req.contentType then
    Dispatched.fields req.xTenantId (some fresh) (some req.rawBody)
      Source.text_upload
  else
    Dispatched.unsupported

/-- The `ingest` handler: dispatch on content type, validate `tenant_id` then
`text`, build the canonical message, publish it when a publisher is
configured, and return the accepted dict.  The second component is the list
of messages published to the queue during the call. -/
def ingest (cfg : GatewayConfig) (fresh : PyStr) (req : IngestRequest) :
    IngestOutcome × List QueueMessage :=
  match dispatch fresh req with
  | Dispatched.invalidJson =>
      (IngestOutcome.httpError 400 "Invalid JSON".data, [])
  | Dispatched.unsupported =>
      (IngestOutcome.httpError 415
        "Content-Type must be application/json or text/plain".data, [])
  | Dispatched.fields tenant_id log_id text source =>
      if !pyTruthy tenant_id then
        (IngestOutcome.httpError 400 "Missing tenant_id".data, [])
      else if !pyTruthy text || (pyStrip (text.getD [])).isEmpty then
        (IngestOutcome.httpError 400 "Missing or empty text".data, [])
      else
        let message : QueueMessage := ⟨tenant_id, log_id, text, source⟩
        let published := if cfg.publisherConfigured then [message] else []
        (IngestOutcome.ret log_id, published)

/-- The HTTP-level encoding of the handler outcome.  A raised `HTTPException`
becomes a response with its status; any other return value is serialised by
FastAPI with the default status 200, and the tuple
`(\x7b"status": "accepted", "log_id": log_id\x7d, 202)` is encoded as a
two-element JSON array — the `202` element does not set the status code. -/
def encodeIngest : IngestOutcome → HttpResponse
  | IngestOutcome.httpError status detail => httpExceptionResponse status detail
  | IngestOutcome.ret log_id =>
      ⟨200, Json.arr [Json.obj [("status".data, Json.str "accepted".data),
                                ("log_id".data, Json.ofOptStr log_id)],
                      Json.num 202]⟩

/-- The full observable behaviour of one `/ingest` call. -/
def ingestResponse (cfg : GatewayConfig) (fresh : PyStr) (req : IngestRequest) :
    HttpResponse × List QueueMessage :=
  let r := ingest cfg fresh req
  (encodeIngest r.1, r.2)

end Api

namespace Worker

/-- The decoded canonical LogEntry payload, restricted to the four keys the
worker reads via `data.get(...)`; each may be absent (`None`). -/
structure Payload where
  tenant_id : Option PyStr
  log_id : Option PyStr
  text : Option PyStr
  source : Option PyStr
deriving DecidableEq

/-- A ProcessedLog document as written by `doc_ref.set`.  `processed_at` holds
the server-assigned timestamp (`firestore.SERVER_TIMESTAMP`). -/
structure StoredDoc where
  source : PyStr
  original_text : PyStr
  modified_data : PyStr
  processed_at : Nat
  processing_time_seconds : ℚ
  text_length : Nat
deriving DecidableEq

/-- Firestore path `tenants/{tenant_id}/processed_logs/{log_id}`, keyed by the
two identifiers (the collection names are fixed). -/
abbrev StoreKey := PyStr × PyStr

abbrev Store := List (StoreKey × StoredDoc)

/-- Model of `doc_ref.set`: fully replace the document at the key. -/
def storeSet (k : StoreKey) (d : StoredDoc) (s : Store) : Store :=
  (k, d) :: s.filter (fun e => decide (e.1 ≠ k))

/-- All documents stored at a key. -/
def docsAt (k : StoreKey) (s : Store) : List StoredDoc :=
  (s.filter (fun e => decide (e.1 = k))).map Prod.snd

/-- Observable side effects of one `/process` invocation, in program order. -/
inductive Effect where
  | sleep (seconds : ℚ)
  | write (k : StoreKey) (d : StoredDoc)
deriving DecidableEq

/-- The documents written by a list of effects, in order. -/
def writtenDocs (effs : List Effect) : List StoredDoc :=
  effs.filterMap fun e =>
    match e with
    | Effect.write _ d => some d
    | _ => none

/-- The result of evaluating `envelope["message"]["data"]`, base64-decoding
it and JSON-parsing it, with each step's failure mode. -/
inductive MessageData where
  | noDataKey : MessageData
  | base64Error : MessageData
  | jsonError : MessageData
  | payload (p : Payload) : MessageData
deriving DecidableEq

/-- The body of a `POST /process` request after `request.json()`:
`invalidJson` models a body that raises `json.JSONDecodeError`;
`noMessageKey` a JSON object without the `"message"` key. -/
inductive ProcessRequest where
  | invalidJson : ProcessRequest
  | noMessageKey : ProcessRequest
  | message (d : MessageData) : ProcessRequest
deriving DecidableEq

/-- Python exceptions distinguished by the handler's `except` clauses. -/
inductive PyExc where
  | httpException (status : Nat) (detail : PyStr)
  | jsonDecodeError
  | otherError (msg : PyStr)
deriving DecidableEq

/-- Python `str(e)`: Starlette's `HTTPException.__str__` renders
`"{status}: {detail}"`; for other exceptions the message itself. -/
def pyExcStr : PyExc → PyStr
  | PyExc.httpException status detail => (toString status).data ++ ": ".data ++ detail
  | PyExc.jsonDecodeError => []
  | PyExc.otherError msg => msg

/-- The Python return value of a successful `process` call (before the
trailing `, 200` tuple element). -/
structure ProcessOk where
  log_id : PyStr
  tenant_id : PyStr
  processing_time : ℚ
deriving DecidableEq

/-- The body of the `try:` block of `process`: envelope check, payload decode,
field validation, simulated delay, redaction and the Firestore write.  Raised
exceptions (including the `HTTPException(400, ...)` raises) propagate as
`Except.error` to the `except` clauses.  Returns the handler value, the store
after the call and the ordered side effects. -/
def processTry (now : Nat) (store : Store) (req : ProcessRequest) :
    Except PyExc (ProcessOk × Store × List Effect) :=
  match req with
  | ProcessRequest.invalidJson => Except.error PyExc.jsonDecodeError
  | ProcessRequest.noMessageKey =>
      Except.error (PyExc.httpException 400 "Invalid Pub/Sub message format".data)
  | ProcessRequest.message MessageData.noDataKey =>
      Except.error (PyExc.otherError "data".data)
  | ProcessRequest.message MessageData.base64Error =>
      Except.error (PyExc.otherError "Invalid base64-encoded string".data)
  | ProcessRequest.message MessageData.jsonError =>
      Except.error PyExc.jsonDecodeError
  | ProcessRequest.message (MessageData.payload p) =>
      if !pyTruthy p.tenant_id || !pyTruthy p.log_id || !pyTruthy p.text then
        Except.error (PyExc.httpException 400 "Missing required fields".data)
      else
        let tenant_id := p.tenant_id.getD []
        let log_id := p.log_id.getD []
        let text := p.text.getD []
        let source := p.source.getD "unknown".data
        let processing_time : ℚ := (text.length : ℚ) * (5 / 100)
        let modified_text := pyReplace "555-".data "[REDACTED]-".data text
        let doc : StoredDoc :=
          ⟨source, text, modified_text, now, processing_time, text.length⟩
        let k : StoreKey := (tenant_id, log_id)
        Except.ok (⟨log_id, tenant_id, processing_time⟩,
          storeSet k doc store,
          [Effect.sleep processing_time, Effect.write k doc])

/-- Outcome of the `process` handler: either a raised `HTTPException` or the
Python return value `(\x7b...\x7d, 200)`. -/
inductive ProcessOutcome where
  | httpError (status : Nat) (detail : PyStr)
  | ret (v : ProcessOk)
deriving DecidableEq

/-- The `process` handler: run the `try:` body, then apply the `except`
clauses: `json.JSONDecodeError` maps to a 400, while `except Exception` maps
every other exception — including the `HTTPException(400, ...)` raised inside
the `try:` block — to a 500 with `str(e)` as detail. -/
def process (now : Nat) (store : Store) (req : ProcessRequest) :
    ProcessOutcome × Store × List Effect :=
  match processTry now store req with
  | Except.ok (v, store2, effs) => (ProcessOutcome.ret v, store2, effs)
  | Except.error PyExc.jsonDecodeError =>
      (ProcessOutcome.httpError 400 "Invalid JSON in message".data, store, [])
  | Except.error e =>
      (ProcessOutcome.httpError 500 (pyExcStr e), store, [])

/-- HTTP-level encoding of the handler outcome: a raised `HTTPException`
keeps its status; the returned tuple `(\x7b...\x7d, 200)` is serialised by
FastAPI as a two-element JSON array with the default status 200. -/
def encodeProcess : ProcessOutcome → HttpResponse
  | ProcessOutcome.httpError status detail => httpExceptionResponse status detail
  | ProcessOutcome.ret v =>
      ⟨200, Json.arr [Json.obj [("status".data, Json.str "processed".data),
                                ("log_id".data, Json.str v.log_id),
                                ("tenant_id".data, Json.str v.tenant_id),
                                ("processing_time".data, Json.num v.processing_time)],
                      Json.num 200]⟩

/-- The full observable behaviour of one `POST /process` call. -/
def processResponse (now : Nat) (store : Store) (req : ProcessRequest) :
    HttpResponse × Store × List Effect :=
  let r := process now store req
  (encodeProcess r.1, r.2)

/-- The document `process` writes for a valid payload `p` at server time
`now` (the dict literal passed to `doc_ref.set`). -/
def docFor (now : Nat) (p : Payload) : StoredDoc :=
  ⟨p.source.getD "unknown".data, p.text.getD [],
   pyReplace "555-".data "[REDACTED]-".data (p.text.getD []),
   now, ((p.text.getD []).length : ℚ) * (5 / 100), (p.text.getD []).length⟩

end Worker

/-! ## Helper lemmas -/

/-- Inversion of `dispatch`: where a `fields` result's values come from. -/
theorem dispatch_fields_inv (fresh : PyStr) (req : Api.IngestRequest)
    (t l x : Option PyStr) (src : Api.Source)
    (h : Api.dispatch fresh req = Api.Dispatched.fields t l x src) :
    (src = Api.Source.json ∧ ∃ b, req.jsonBody = some b ∧
        t = b.tenant_id ∧ l = b.log_id ∧ x = b.text)
    ∨ (src = Api.Source.text_upload ∧ t = req.xTenantId ∧ l = some fresh
        ∧ x = some req.rawBody) := by
  unfold Api.dispatch at h
  split at h
  · cases hb : req.jsonBody with
    | none => rw [hb] at h; cases h
    | some b => rw [hb] at h; cases h; left; exact ⟨rfl, b, rfl, rfl, rfl, rfl⟩
  · split at h
    · cases h; right; exact ⟨rfl, rfl, rfl, rfl⟩
    · cases h

/-- Evaluation of `ingest` on a dispatched request that passes both validations. -/
theorem ingest_fields_accept (cfg : Api.GatewayConfig) (fresh : PyStr)
    (req : Api.IngestRequest) (t l x : Option PyStr) (src : Api.Source)
    (hd : Api.dispatch fresh req = Api.Dispatched.fields t l x src)
    (ht : pyTruthy t = true)
    (hx : (!pyTruthy x || (pyStrip (x.getD [])).isEmpty) = false) :
    Api.ingest cfg fresh req =
      (Api.IngestOutcome.ret l,
       if cfg.publisherConfigured then [⟨t, l, x, src⟩] else []) := by
  unfold Api.ingest
  rw [hd]
  simp [ht, hx]

/-- Inversion of `ingest`: an accepted call passed dispatch and validation. -/
theorem ingest_ret_inv (cfg : Api.GatewayConfig) (fresh : PyStr)
    (req : Api.IngestRequest) (log_id : Option PyStr)
    (h : (Api.ingest cfg fresh req).1 = Api.IngestOutcome.ret log_id) :
    ∃ t x src, Api.dispatch fresh req = Api.Dispatched.fields t log_id x src
      ∧ pyTruthy t = true
      ∧ (!pyTruthy x || (pyStrip (x.getD [])).isEmpty) = false := by
  unfold Api.ingest at h
  split at h
  · cases h
  · cases h
  · rename_i t0 l0 x0 src0 heq
    split at h
    · cases h
    · split at h
      · cases h
      · rename_i h1 h2
        cases h
        exact ⟨t0, x0, src0, heq, by simpa using h1, by simpa using h2⟩

/-- A rejected `ingest` call publishes nothing. -/
theorem ingest_httpError_publishes_nothing (cfg : Api.GatewayConfig)
    (fresh : PyStr) (req : Api.IngestRequest) (st : Nat) (dl : PyStr)
    (pub : List Api.QueueMessage)
    (h : Api.ingest cfg fresh req = (Api.IngestOutcome.httpError st dl, pub)) :
    pub = [] := by
  unfold Api.ingest at h
  split at h
  · cases h; rfl
  · cases h; rfl
  · split at h
    · cases h; rfl
    · split at h
      · cases h; rfl
      · cases h

/-- Entries surviving `storeSet`'s filter never match the key again. -/
theorem filter_ne_then_eq (k : Worker.StoreKey) (s : Worker.Store) :
    (s.filter (fun e => decide (e.1 ≠ k))).filter (fun e => decide (e.1 = k)) = [] := by
  induction s with
  | nil => rfl
  | cons a s ih =>
    by_cases hak : a.1 = k
    · simp [List.filter_cons, hak, ih]
    · simp [List.filter_cons, hak, ih]

/-- After `storeSet k d`, the key `k` holds exactly the document `d`. -/
theorem docsAt_storeSet (k : Worker.StoreKey) (d : Worker.StoredDoc)
    (s : Worker.Store) :
    Worker.docsAt k (Worker.storeSet k d s) = [d] := by
  unfold Worker.docsAt Worker.storeSet
  simp [List.filter_cons, filter_ne_then_eq k s]

/-- Evaluation of `process` on a payload whose three required fields are truthy: the
returned value, the store update and the ordered effects. -/
theorem process_payload_valid (now : Nat) (store : Worker.Store) (p : Worker.Payload)
    (ht : pyTruthy p.tenant_id = true) (hl : pyTruthy p.log_id = true)
    (hx : pyTruthy p.text = true) :
    Worker.process now store
        (Worker.ProcessRequest.message (Worker.MessageData.payload p)) =
      (Worker.ProcessOutcome.ret ⟨p.log_id.getD [], p.tenant_id.getD [],
          ((p.text.getD []).length : ℚ) * (5 / 100)⟩,
       Worker.storeSet (p.tenant_id.getD [], p.log_id.getD [])
         (Worker.docFor now p) store,
       [Worker.Effect.sleep (((p.text.getD []).length : ℚ) * (5 / 100)),
        Worker.Effect.write (p.tenant_id.getD [], p.log_id.getD [])
          (Worker.docFor now p)]) := by
  unfold Worker.process Worker.processTry Worker.docFor
  simp [ht, hl, hx]

/-- The accepted/rejected outcome of `ingest` does not depend on whether a
publisher is configured. -/
theorem ingest_outcome_independent (cfg1 cfg2 : Api.GatewayConfig)
    (fresh : PyStr) (req : Api.IngestRequest) :
    (Api.ingest cfg1 fresh req).1 = (Api.ingest cfg2 fresh req).1 := by
  unfold Api.ingest
  cases Api.dispatch fresh req with
  | invalidJson => rfl
  | unsupported => rfl
  | fields t l x src =>
    by_cases h1 : (!pyTruthy t) = true
    · simp [h1]
    · by_cases h2 : (!pyTruthy x || (pyStrip (x.getD [])).isEmpty) = true
      · simp [h1, h2]
      · simp [h1, h2]

/-! ## Claims -/

/-- Claim C1: the spec says `/process` returns 400 (not 500) for a missing
`message` envelope key and for a payload missing `tenant_id`/`log_id`/`text`.
The code raises `HTTPException(400, ...)` in both cases, but the surrounding
`except Exception` clause catches those exceptions and re-raises them as 500,
so the Worker in fact answers 500 (retryable) at both inputs. -/
theorem c1_worker_answers_500_not_400 :
    (Worker.process 0 [] Worker.ProcessRequest.noMessageKey).1 =
      Worker.ProcessOutcome.httpError 500 "400: Invalid Pub/Sub message format".data
    ∧ (Worker.process 0 []
        (Worker.ProcessRequest.message (Worker.MessageData.payload
          ⟨none, some "L1".data, some "hi".data, some "json".data⟩))).1 =
      Worker.ProcessOutcome.httpError 500 "400: Missing required fields".data :=
  ⟨rfl, rfl⟩

/-- Claim C2 (counterexample): a JSON `/ingest` request that omits `log_id`
is accepted, yet the message published to the queue carries `log_id = None` —
the Gateway does not generate a `log_id` for JSON input, refuting the claim
that all four fields are populated. -/
theorem c2_counterexample :
    Api.ingest ⟨true⟩ []
        ⟨"application/json".data,
         some ⟨some "acme".data, none, some "hi".data⟩, [], none⟩ =
      (Api.IngestOutcome.ret none,
       [⟨some "acme".data, none, some "hi".data, Api.Source.json⟩]) :=
  rfl

/-- Claim C2 (amended): every message the configured Gateway publishes for an
accepted request has `tenant_id` non-empty, `text` non-empty and non-blank
after trimming, and `source` populated; `log_id` equals the client-supplied
value for JSON input (which is `None` when the client omits it) and is the
freshly generated identifier for plain-text input. -/
theorem c2_published_message_fields (cfg : Api.GatewayConfig) (fresh : PyStr)
    (req : Api.IngestRequest) (log_id : Option PyStr)
    (hcfg : cfg.publisherConfigured = true)
    (hacc : (Api.ingest cfg fresh req).1 = Api.IngestOutcome.ret log_id) :
    ∃ m : Api.QueueMessage,
      (Api.ingest cfg fresh req).2 = [m]
      ∧ pyTruthy m.tenant_id = true
      ∧ pyTruthy m.text = true
      ∧ (pyStrip (m.text.getD [])).isEmpty = false
      ∧ m.log_id = log_id
      ∧ (m.source = Api.Source.json →
          ∃ b, req.jsonBody = some b ∧ m.log_id = b.log_id)
      ∧ (m.source = Api.Source.text_upload → m.log_id = some fresh) := by
  obtain ⟨t, x, src, hd, ht, hx⟩ := ingest_ret_inv cfg fresh req log_id hacc
  rw [Bool.or_eq_false_iff] at hx
  obtain ⟨hx1, hx2⟩ := hx
  rw [Bool.not_eq_false'] at hx1
  have hacc2 := ingest_fields_accept cfg fresh req t log_id x src hd ht
    (by rw [Bool.or_eq_false_iff, Bool.not_eq_false']; exact ⟨hx1, hx2⟩)
  refine ⟨⟨t, log_id, x, src⟩, by rw [hacc2]; simp [hcfg], ht, hx1, hx2, rfl, ?_, ?_⟩
  · intro hsrc
    simp only at hsrc
    rcases dispatch_fields_inv fresh req t log_id x src hd with
      ⟨_, b, hb, _, hbl, _⟩ | ⟨hs2, _, _, _⟩
    · exact ⟨b, hb, hbl⟩
    · rw [hsrc] at hs2; simp at hs2
  · intro hsrc
    simp only at hsrc
    rcases dispatch_fields_inv fresh req t log_id x src hd with
      ⟨hs2, _⟩ | ⟨_, _, hl, _⟩
    · rw [hsrc] at hs2; simp at hs2
    · exact hl

/-- Witness for C2 (amended) at a concrete JSON request carrying `log_id`. -/
theorem c2_published_message_fields_witness :
    ∃ m : Api.QueueMessage,
      (Api.ingest ⟨true⟩ []
          ⟨"application/json".data,
           some ⟨some "acme".data, some "L1".data, some "hi".data⟩, [], none⟩).2 = [m]
      ∧ pyTruthy m.tenant_id = true
      ∧ pyTruthy m.text = true
      ∧ (pyStrip (m.text.getD [])).isEmpty = false
      ∧ m.log_id = some "L1".data
      ∧ (m.source = Api.Source.json →
          ∃ b, (some (⟨some "acme".data, some "L1".data, some "hi".data⟩ : Api.JsonBody)) = some b
            ∧ m.log_id = b.log_id)
      ∧ (m.source = Api.Source.text_upload → m.log_id = some []) :=
  c2_published_message_fields ⟨true⟩ []
    ⟨"application/json".data,
     some ⟨some "acme".data, some "L1".data, some "hi".data⟩, [], none⟩
    (some "L1".data) rfl rfl

/-- Claim C3: the spec says a valid `/ingest` request yields HTTP 202 with
body the object with status "accepted" and the resolved log_id.  The handler
executes `return dict, 202`, but FastAPI does not read a trailing tuple
element as a status code: it serialises the whole tuple as a two-element JSON
array and answers with the default status 200.  Evaluated at a valid JSON
request, the response status is 200 (not 202) and the body is that array. -/
theorem c3_accept_status_is_200_not_202 :
    (Api.ingestResponse ⟨true⟩ []
        ⟨"application/json".data,
         some ⟨some "acme".data, some "L1".data, some "hello".data⟩,
         [], none⟩).1.status = 200
    ∧ (200 : Nat) ≠ 202
    ∧ (Api.ingestResponse ⟨true⟩ []
        ⟨"application/json".data,
         some ⟨some "acme".data, some "L1".data, some "hello".data⟩,
         [], none⟩).1.body =
      Json.arr [Json.obj [("status".data, Json.str "accepted".data),
                          ("log_id".data, Json.str "L1".data)],
                Json.num 202] :=
  ⟨rfl, by decide, rfl⟩

/-- Claim C4: redelivery safety.  Processing the same valid decoded payload
twice leaves exactly one document at the key `(tenant_id, log_id)`, and every
content field other than `processed_at` is identical after each invocation,
whatever the initial store and the two server timestamps. -/
theorem c4_redelivery_idempotent (p : Worker.Payload) (now1 now2 : Nat)
    (store : Worker.Store)
    (ht : pyTruthy p.tenant_id = true) (hl : pyTruthy p.log_id = true)
    (hx : pyTruthy p.text = true) :
    ∃ d1 d2 : Worker.StoredDoc,
      Worker.docsAt (p.tenant_id.getD [], p.log_id.getD [])
          (Worker.process now1 store
            (Worker.ProcessRequest.message (Worker.MessageData.payload p))).2.1
        = [d1]
      ∧ Worker.docsAt (p.tenant_id.getD [], p.log_id.getD [])
          (Worker.process now2
            (Worker.process now1 store
              (Worker.ProcessRequest.message (Worker.MessageData.payload p))).2.1
            (Worker.ProcessRequest.message (Worker.MessageData.payload p))).2.1
        = [d2]
      ∧ d1.source = d2.source
      ∧ d1.original_text = d2.original_text
      ∧ d1.modified_data = d2.modified_data
      ∧ d1.processing_time_seconds = d2.processing_time_seconds
      ∧ d1.text_length = d2.text_length := by
  refine ⟨Worker.docFor now1 p, Worker.docFor now2 p, ?_, ?_, rfl, rfl, rfl, rfl, rfl⟩
  · rw [process_payload_valid now1 store p ht hl hx]
    exact docsAt_storeSet _ _ _
  · rw [process_payload_valid now1 store p ht hl hx,
        process_payload_valid now2 _ p ht hl hx]
    exact docsAt_storeSet _ _ _

/-- Witness for C4 at a concrete payload, two timestamps and empty store. -/
theorem c4_redelivery_idempotent_witness :
    ∃ d1 d2 : Worker.StoredDoc,
      Worker.docsAt ("acme".data, "L1".data)
          (Worker.process 3 []
            (Worker.ProcessRequest.message (Worker.MessageData.payload
              ⟨some "acme".data, some "L1".data, some "hi".data, some "json".data⟩))).2.1
        = [d1]
      ∧ Worker.docsAt ("acme".data, "L1".data)
          (Worker.process 9
            (Worker.process 3 []
              (Worker.ProcessRequest.message (Worker.MessageData.payload
                ⟨some "acme".data, some "L1".data, some "hi".data, some "json".data⟩))).2.1
            (Worker.ProcessRequest.message (Worker.MessageData.payload
              ⟨some "acme".data, some "L1".data, some "hi".data, some "json".data⟩))).2.1
        = [d2]
      ∧ d1.source = d2.source
      ∧ d1.original_text = d2.original_text
      ∧ d1.modified_data = d2.modified_data
      ∧ d1.processing_time_seconds = d2.processing_time_seconds
      ∧ d1.text_length = d2.text_length :=
  c4_redelivery_idempotent
    ⟨some "acme".data, some "L1".data, some "hi".data, some "json".data⟩
    3 9 [] rfl rfl rfl

/-- Claim C5: the end-to-end scenario.  The Gateway accepts the JSON entry
with tenant "acme", log id "L1" and text "call 555-1234", resolving
`log_id = "L1"` and publishing the canonical message — but its HTTP status is
200, not the 202 the spec states, because FastAPI ignores the trailing `202`
tuple element (the C3 slip).  The Worker, on the corresponding payload,
stores under key `("acme", "L1")` a document whose `modified_data` equals
"call [REDACTED]-1234". -/
theorem c5_end_to_end :
    Api.ingest ⟨true⟩ []
        ⟨"application/json".data,
         some ⟨some "acme".data, some "L1".data, some "call 555-1234".data⟩,
         [], none⟩ =
      (Api.IngestOutcome.ret (some "L1".data),
       [⟨some "acme".data, some "L1".data, some "call 555-1234".data,
         Api.Source.json⟩])
    ∧ (Api.ingestResponse ⟨true⟩ []
        ⟨"application/json".data,
         some ⟨some "acme".data, some "L1".data, some "call 555-1234".data⟩,
         [], none⟩).1.status = 200
    ∧ Worker.docsAt ("acme".data, "L1".data)
        (Worker.process 7 []
          (Worker.ProcessRequest.message (Worker.MessageData.payload
            ⟨some "acme".data, some "L1".data, some "call 555-1234".data,
             some "json".data⟩))).2.1 =
      [⟨"json".data, "call 555-1234".data, "call [REDACTED]-1234".data, 7,
        ((13 : Nat) : ℚ) * (5 / 100), 13⟩] := by
  refine ⟨rfl, rfl, ?_⟩
  simp only [process_payload_valid 7 []
      ⟨some "acme".data, some "L1".data, some "call 555-1234".data,
       some "json".data⟩ rfl rfl rfl, Option.getD_some]
  rw [docsAt_storeSet]
  simp [Worker.docFor, pyReplace]

/-- Claim C6: redaction is a pure, deterministic function of the text alone.
Two Worker invocations on valid payloads sharing the same `text` — whatever
their `tenant_id`, `log_id`, `source`, prior store contents or server
timestamps — each write exactly one document, and both documents carry the
same `modified_data`, namely the redaction of that shared text. -/
theorem c6_redaction_pure (p1 p2 : Worker.Payload) (now1 now2 : Nat)
    (s1 s2 : Worker.Store)
    (htext : p1.text = p2.text)
    (h1t : pyTruthy p1.tenant_id = true) (h1l : pyTruthy p1.log_id = true)
    (h1x : pyTruthy p1.text = true)
    (h2t : pyTruthy p2.tenant_id = true) (h2l : pyTruthy p2.log_id = true)
    (h2x : pyTruthy p2.text = true) :
    (Worker.writtenDocs
        (Worker.process now1 s1
          (Worker.ProcessRequest.message (Worker.MessageData.payload p1))).2.2).map
        Worker.StoredDoc.modified_data =
      [pyReplace "555-".data "[REDACTED]-".data (p1.text.getD [])]
    ∧ (Worker.writtenDocs
        (Worker.process now2 s2
          (Worker.ProcessRequest.message (Worker.MessageData.payload p2))).2.2).map
        Worker.StoredDoc.modified_data =
      [pyReplace "555-".data "[REDACTED]-".data (p1.text.getD [])] := by
  constructor
  · rw [process_payload_valid now1 s1 p1 h1t h1l h1x]
    rfl
  · rw [process_payload_valid now2 s2 p2 h2t h2l h2x, htext]
    rfl

/-- Witness for C6: two payloads differing in tenant, log id and source but
sharing the text "call 555-1234". -/
theorem c6_redaction_pure_witness :
    (Worker.writtenDocs
        (Worker.process 1 []
          (Worker.ProcessRequest.message (Worker.MessageData.payload
            ⟨some "acme".data, some "L1".data, some "call 555-1234".data,
             some "json".data⟩))).2.2).map
        Worker.StoredDoc.modified_data =
      [pyReplace "555-".data "[REDACTED]-".data
        ((some "call 555-1234".data).getD [])]
    ∧ (Worker.writtenDocs
        (Worker.process 2
          [(("beta".data, "Z9".data), ⟨[], [], [], 0, 0, 0⟩)]
          (Worker.ProcessRequest.message (Worker.MessageData.payload
            ⟨some "beta".data, some "Z9".data, some "call 555-1234".data,
             some "text_upload".data⟩))).2.2).map
        Worker.StoredDoc.modified_data =
      [pyReplace "555-".data "[REDACTED]-".data
        ((some "call 555-1234".data).getD [])] :=
  c6_redaction_pure
    ⟨some "acme".data, some "L1".data, some "call 555-1234".data, some "json".data⟩
    ⟨some "beta".data, some "Z9".data, some "call 555-1234".data, some "text_upload".data⟩
    1 2 [] [(("beta".data, "Z9".data), ⟨[], [], [], 0, 0, 0⟩)]
    rfl rfl rfl rfl rfl rfl rfl

/-- Claim C7: under either supported encoding, a missing or empty `tenant_id`
is rejected with the 400 missing-tenant error, and a present tenant with a
missing, empty or whitespace-only `text` is rejected with the 400 empty-text
error; the tenant check comes first, so when both are invalid the reported
error is the missing-tenant one, and no rejected call publishes anything. -/
theorem c7_gateway_validation (cfg : Api.GatewayConfig) (fresh : PyStr)
    (req : Api.IngestRequest) (t l x : Option PyStr) (src : Api.Source)
    (hd : Api.dispatch fresh req = Api.Dispatched.fields t l x src) :
    (pyTruthy t = false →
      Api.ingest cfg fresh req =
        (Api.IngestOutcome.httpError 400 "Missing tenant_id".data, []))
    ∧ (pyTruthy t = true →
       (pyTruthy x = false ∨ (pyStrip (x.getD [])).isEmpty = true) →
      Api.ingest cfg fresh req =
        (Api.IngestOutcome.httpError 400 "Missing or empty text".data, []))
    ∧ (∀ st dl pub,
        Api.ingest cfg fresh req = (Api.IngestOutcome.httpError st dl, pub) →
        pub = []) := by
  refine ⟨?_, ?_, fun st dl pub h =>
    ingest_httpError_publishes_nothing cfg fresh req st dl pub h⟩
  · intro htf
    unfold Api.ingest
    rw [hd]
    simp [htf]
  · intro htt hxx
    unfold Api.ingest
    rw [hd]
    have hx : (!pyTruthy x || (pyStrip (x.getD [])).isEmpty) = true := by
      rcases hxx with h | h <;> simp [h]
    simp [htt, hx]

/-- Witness for C7 at a JSON request with no tenant and whitespace-only text:
the missing-tenant error is the one reported and nothing is published. -/
theorem c7_gateway_validation_witness :
    Api.ingest ⟨true⟩ []
        ⟨"application/json".data, some ⟨none, none, some "   ".data⟩, [], none⟩ =
      (Api.IngestOutcome.httpError 400 "Missing tenant_id".data, []) :=
  (c7_gateway_validation ⟨true⟩ []
    ⟨"application/json".data, some ⟨none, none, some "   ".data⟩, [], none⟩
    none none (some "   ".data) Api.Source.json rfl).1 rfl

/-- Claim C8: for every successfully processed message the Worker first
sleeps for exactly `len(text) * 0.05` seconds and only then performs the
single storage write; the stored document records
`processing_time_seconds = len(text) * 0.05` and `text_length = len(text)`.
(The float literal `0.05` is modelled as the exact rational `5 / 100`.) -/
theorem c8_delay_proportional_and_before_write (p : Worker.Payload) (now : Nat)
    (store : Worker.Store)
    (ht : pyTruthy p.tenant_id = true) (hl : pyTruthy p.log_id = true)
    (hx : pyTruthy p.text = true) :
    ∃ d : Worker.StoredDoc,
      (Worker.process now store
          (Worker.ProcessRequest.message (Worker.MessageData.payload p))).2.2 =
        [Worker.Effect.sleep (((p.text.getD []).length : ℚ) * (5 / 100)),
         Worker.Effect.write (p.tenant_id.getD [], p.log_id.getD []) d]
      ∧ d.processing_time_seconds = ((p.text.getD []).length : ℚ) * (5 / 100)
      ∧ d.text_length = (p.text.getD []).length := by
  refine ⟨Worker.docFor now p, ?_, rfl, rfl⟩
  rw [process_payload_valid now store p ht hl hx]

/-- Witness for C8 at a concrete ten-character text. -/
theorem c8_delay_proportional_witness :
    ∃ d : Worker.StoredDoc,
      (Worker.process 5 []
          (Worker.ProcessRequest.message (Worker.MessageData.payload
            ⟨some "acme".data, some "L1".data, some "0123456789".data,
             some "json".data⟩))).2.2 =
        [Worker.Effect.sleep ((((some "0123456789".data).getD []).length : ℚ) * (5 / 100)),
         Worker.Effect.write ((some "acme".data).getD [], (some "L1".data).getD []) d]
      ∧ d.processing_time_seconds = (((some "0123456789".data).getD []).length : ℚ) * (5 / 100)
      ∧ d.text_length = ((some "0123456789".data).getD []).length :=
  c8_delay_proportional_and_before_write
    ⟨some "acme".data, some "L1".data, some "0123456789".data, some "json".data⟩
    5 [] rfl rfl rfl

/-- Claim C9: the HTTP response of `/ingest` — status and body — is the same
function of the request whether or not a queue publisher is configured; the
configuration only determines whether the canonical message is actually
published. -/
theorem c9_http_contract_independent_of_publisher (cfg1 cfg2 : Api.GatewayConfig)
    (fresh : PyStr) (req : Api.IngestRequest) :
    (Api.ingestResponse cfg1 fresh req).1 = (Api.ingestResponse cfg2 fresh req).1 := by
  unfold Api.ingestResponse
  exact congrArg Api.encodeIngest (ingest_outcome_independent cfg1 cfg2 fresh req)

/-- Claim C10: the published message's `text` is the request's text exactly as
received — the JSON field value for JSON input, the decoded body for plain
text — with no whitespace trimming applied. -/
theorem c10_text_published_untrimmed (cfg : Api.GatewayConfig) (fresh : PyStr)
    (req : Api.IngestRequest) (log_id : Option PyStr)
    (hcfg : cfg.publisherConfigured = true)
    (hacc : (Api.ingest cfg fresh req).1 = Api.IngestOutcome.ret log_id) :
    ∃ m : Api.QueueMessage,
      (Api.ingest cfg fresh req).2 = [m]
      ∧ (m.source = Api.Source.json →
          ∃ b, req.jsonBody = some b ∧ m.text = b.text)
      ∧ (m.source = Api.Source.text_upload → m.text = some req.rawBody) := by
  obtain ⟨t, x, src, hd, ht, hx⟩ := ingest_ret_inv cfg fresh req log_id hacc
  have hacc2 := ingest_fields_accept cfg fresh req t log_id x src hd ht hx
  refine ⟨⟨t, log_id, x, src⟩, by rw [hacc2]; simp [hcfg], ?_, ?_⟩
  · intro hsrc
    simp only at hsrc
    rcases dispatch_fields_inv fresh req t log_id x src hd with
      ⟨_, b, hb, _, _, hbx⟩ | ⟨hs2, _, _, _⟩
    · exact ⟨b, hb, hbx⟩
    · rw [hsrc] at hs2; simp at hs2
  · intro hsrc
    simp only at hsrc
    rcases dispatch_fields_inv fresh req t log_id x src hd with
      ⟨hs2, _⟩ | ⟨_, _, _, hxr⟩
    · rw [hsrc] at hs2; simp at hs2
    · simp only [hxr]

/-- Witness for C10: a plain-text request whose body is "  hello  " is
accepted and published with the surrounding whitespace intact. -/
theorem c10_text_published_untrimmed_witness :
    ∃ m : Api.QueueMessage,
      (Api.ingest ⟨true⟩ "u1".data
          ⟨"text/plain".data, none, "  hello  ".data, some "acme".data⟩).2 = [m]
      ∧ (m.source = Api.Source.json →
          ∃ b, (none : Option Api.JsonBody) = some b ∧ m.text = b.text)
      ∧ (m.source = Api.Source.text_upload → m.text = some "  hello  ".data) :=
  c10_text_published_untrimmed ⟨true⟩ "u1".data
    ⟨"text/plain".data, none, "  hello  ".data, some "acme".data⟩
    (some "u1".data) rfl rfl
